import Mathlib

/-!
Verification of the mashwrapper result-interpretation pipeline.

This file shallowly embeds the core logic of `bin/run_species_id.py` and
`bin/species_id_tool.py`: the k-mer column parser, the derived-field
computations, the best-match resolver (sorting, tie detection, distance
threshold), the coverage-based minimum-k-mer heuristic, the stderr
size/coverage extraction, the append-only report writer, and the gzip
early-exit of the concatenation step.

Modelling conventions:
* Python floats are modelled as exact rationals (`ℚ`); the quantities involved
  (mash distances, thresholds, coverages) are small and far from any binary
  floating-point pathology relevant to the verified properties.
* pandas `DataFrame` rows are lists of records; the row label produced by
  `read_csv(..., index_col=False)` (a `RangeIndex`) is carried in the `idx`
  field, since `DataFrame.equals` compares row labels.
* `sort_values('KmersCount', ascending=False)` with the default
  `kind='quicksort'` guarantees only the descending order of the keys; numpy
  fixes the order among equal keys only in its small-array insertion-sort
  regime (at most 16 elements), where the double reversal in pandas
  `nargsort` yields the stable descending arrangement.  The embedding picks
  that stable arrangement as its representative output; it coincides with
  the program exactly on every concrete frame evaluated in this file (at
  most two rows), and no theorem in this file asserts tie-order stability
  of the program's sort on larger frames.
* Fallible Python code (exceptions, `sys.exit`) is modelled with `Except`.
* String helpers are implemented on `String.data` (`List Char`), matching
  Python's code-point-based string semantics and keeping every definition
  kernel-reducible.
-/

namespace Mashwrapper

/-- Python-level failures that the embedded pipeline fragments can raise:
`ValueError` (bad literal / column-count mismatch / explicit raise),
`IndexError` (positional access out of bounds), and pandas
`EmptyDataError` (`read_csv` on empty stdout). -/
inductive PyErr where
  | valueError
  | indexError
  | emptyDataError
deriving DecidableEq

/-- One raw row of `mash dist` stdout, as typed by
`pd.read_csv(..., names=['Ref ID', 'Query ID', 'Mash Dist', 'P-value', 'Kmer'])`:
the first two columns are strings, the distance and p-value are numeric, and
the k-mer fraction column stays a string of the form "count/size". -/
structure RawRow where
  refID : String
  queryID : String
  mashDist : ℚ
  pValue : ℚ
  kmer : String
deriving DecidableEq

/-- A parsed record: the raw columns plus the derived columns added by
`parse_results` (run_species_id.py lines 686-696).  `idx` is the pandas
`RangeIndex` row label, `kmersCount` the integer first part of the k-mer
fraction, `sketchSize` the (never numerically validated) second part, and
`seqSim` the derived percent sequence similarity. -/
structure Rec where
  idx : ℕ
  genus : String
  species : String
  gbi : String
  mashDist : ℚ
  pValue : ℚ
  kmer : String
  kmersCount : ℤ
  sketchSize : Option String
  seqSim : ℚ
deriving DecidableEq

/-! ### Python string primitives, on `List Char` -/

/-- Whitespace recognized by Python's `str.strip` (ASCII subset; the stripped
substrings in this program are ASCII). -/
def isPySpace (c : Char) : Bool :=
  c == ' ' || c == '\t' || c == '\n' || c == '\r' || c == '\x0b' || c == '\x0c'

/-- Python `s.strip()`. -/
def pyStrip (s : String) : String :=
  String.mk (((s.data.dropWhile isPySpace).reverse.dropWhile isPySpace).reverse)

/-- Python slicing `s[n:]` (by code points). -/
def pyDropChars (s : String) (n : ℕ) : String :=
  String.mk (s.data.drop n)

/-- Python `s.endswith(suffix)`. -/
def pyEndsWith (s suffix : String) : Bool :=
  suffix.data.isSuffixOf s.data

/-- Helper for Python `s.split(sep)` with a one-character separator:
splits the character list at every occurrence of `c`. -/
def splitOnCharAux (c : Char) : List Char → List Char → List (List Char)
  | [], acc => [acc.reverse]
  | x :: xs, acc =>
    if x == c then acc.reverse :: splitOnCharAux c xs []
    else splitOnCharAux c xs (x :: acc)

/-- Python `s.split(sep)` for a one-character separator `sep`
(e.g. the `"/"` split of the k-mer fraction column). -/
def pySplitChar (s : String) (c : Char) : List String :=
  (splitOnCharAux c s.data []).map String.mk

/-- Helper for Python `s.split(sep, 1)`: the part before the first occurrence
of `c` and, when `c` occurs, the remainder after it. -/
def breakAtChar (c : Char) : List Char → List Char × Option (List Char)
  | [] => ([], none)
  | x :: xs =>
    if x == c then ([], some xs)
    else
      let p := breakAtChar c xs
      (x :: p.1, p.2)

/-- Python `s.split(sep, 1)` for a one-character separator, returning the head
part and the optional remainder (Python returns a 1- or 2-element list). -/
def pySplit1 (s : String) (c : Char) : String × Option String :=
  let p := breakAtChar c s.data
  (String.mk p.1, p.2.map String.mk)

/-- Digit-string to number, for Python `int()` on a validated digit string. -/
def digitsToNat (l : List Char) : ℕ :=
  l.foldl (fun a c => a * 10 + (c.toNat - 48)) 0

/-- Python `int(s)` on a string, as used by `astype(int)` on the k-mer count
column: optional surrounding whitespace, optional sign, then one or more
digits.  (CPython additionally accepts underscore digit separators and
non-ASCII digits; the columns handled here are plain ASCII digit strings.) -/
def pyIntParseOpt (s : String) : Option ℤ :=
  let t := ((s.data.dropWhile isPySpace).reverse.dropWhile isPySpace).reverse
  let p : Bool × List Char :=
    match t with
    | '+' :: r => (false, r)
    | '-' :: r => (true, r)
    | r => (false, r)
  if p.2 ≠ [] ∧ p.2.all Char.isDigit then
    some (if p.1 then -(digitsToNat p.2 : ℤ) else (digitsToNat p.2 : ℤ))
  else none

/-! ### Identifier grammar (run_species_id.py lines 686-689)

`df[['Genus', 'Species']] = df['Ref ID'].str.split('_', 1, expand=True)`,
a second maxsplit-1 underscore split of the remainder, and
`'GCA' + remainder.str.split('GCA', expand=True).iloc[:, -1]`.
The frame-level pandas behaviour on reference ids that do not follow the
naming convention (`None`/`NaN` cells, column-count mismatches) is modelled
per row with `""` standing for a missing part; no verified claim exercises
malformed reference ids. -/

/-- First token of the reference id: the genus column. -/
def genusOf (ref : String) : String :=
  (pySplit1 ref '_').1

/-- Remainder of the reference id after the genus token, when present. -/
def refRemOf (ref : String) : Option String :=
  (pySplit1 ref '_').2

/-- Species column: first token of the remainder after the genus. -/
def speciesOf (ref : String) : String :=
  match refRemOf ref with
  | none => ""
  | some r => (pySplit1 r '_').1

/-- Suffix after the last occurrence of `"GCA"` in a character list, or
`none` when `"GCA"` does not occur. -/
def afterGCAAux : List Char → Option (List Char)
  | 'G' :: 'C' :: 'A' :: rest =>
    some (match afterGCAAux rest with
          | some s => s
          | none => rest)
  | _ :: xs => afterGCAAux xs
  | [] => none

/-- GeneBank Identifier column: `'GCA' +` the last `'GCA'`-split part of the
post-species remainder. -/
def gbiOf (ref : String) : String :=
  match refRemOf ref with
  | none => ""
  | some r =>
    match (pySplit1 r '_').2 with
    | none => ""
    | some g =>
      "GCA" ++ String.mk (match afterGCAAux g.data with
                          | some s => s
                          | none => g.data)

/-! ### K-mer fraction column (run_species_id.py lines 691-693,
species_id_tool.py lines 312-314)

`df[['KmersCount', 'sketchSize']] = df['Kmer'].str.split("/", expand=True)`
requires the frame-wide expansion to have exactly two columns, else the
two-key assignment raises `ValueError`; rows with a single part get `None`
in the second column.  `df['KmersCount'] = df['KmersCount'].astype(int)`
raises `ValueError` when any first part is not an integer literal.  The
second column is never converted or validated. -/

/-- Number of columns produced by the frame-wide `str.split("/", expand=True)`:
the maximum number of parts over all rows. -/
def kmerWidth (kmers : List String) : ℕ :=
  kmers.foldl (fun m s => max m (pySplitChar s '/').length) 0

/-- Per-row conversion of the split k-mer column: integer first part
(`astype(int)`), raw optional second part. -/
def parseKmerRows : List String → Except PyErr (List (ℤ × Option String))
  | [] => .ok []
  | s :: ss =>
    match pyIntParseOpt ((pySplitChar s '/').headD "") with
    | none => .error .valueError
    | some n =>
      match parseKmerRows ss with
      | .error e => .error e
      | .ok rest => .ok ((n, (pySplitChar s '/').get? 1) :: rest)

/-- The k-mer column handling of `parse_results`: column-count check of the
two-key assignment, then `astype(int)` on the first part. -/
def parseKmerColumn (kmers : List String) : Except PyErr (List (ℤ × Option String)) :=
  if kmerWidth kmers ≠ 2 then .error .valueError
  else parseKmerRows kmers

/-! ### Building the parsed frame -/

/-- One parsed record: raw columns, identifier-derived columns, k-mer split
columns, and `% Seq Sim = (1 - Mash Dist) * 100`
(run_species_id.py line 696, species_id_tool.py line 317). -/
def mkRec (i : ℕ) (row : RawRow) (k : ℤ × Option String) : Rec :=
  { idx := i
    genus := genusOf row.refID
    species := speciesOf row.refID
    gbi := gbiOf row.refID
    mashDist := row.mashDist
    pValue := row.pValue
    kmer := row.kmer
    kmersCount := k.1
    sketchSize := k.2
    seqSim := (1 - row.mashDist) * 100 }

/-- Zip rows with their parsed k-mer columns, numbering rows from `i`. -/
def buildRecs : ℕ → List RawRow → List (ℤ × Option String) → List Rec
  | _, [], _ => []
  | _, _ :: _, [] => []
  | i, row :: rows, k :: ks => mkRec i row k :: buildRecs (i + 1) rows ks

/-- The parsing front half of `parse_results` (run_species_id.py lines
682-696): `read_csv` (which raises `EmptyDataError` on empty stdout),
identifier-derived columns, k-mer split and conversion, similarity column. -/
def parseFrame (rows : List RawRow) : Except PyErr (List Rec) :=
  if rows.isEmpty then .error .emptyDataError
  else
    match parseKmerColumn (rows.map (·.kmer)) with
    | .error e => .error e
    | .ok ks => .ok (buildRecs 0 rows ks)

/-! ### Sorting (`df.sort_values('KmersCount', ascending=False)`) -/

/-- Stable descending insertion: place `r` after every element with a strictly
greater k-mer count and before the first element whose count is `≤ r`'s. -/
def insertDesc (r : Rec) : List Rec → List Rec
  | [] => [r]
  | x :: xs =>
    if r.kmersCount < x.kmersCount then x :: insertDesc r xs
    else r :: x :: xs

/-- `df.sort_values('KmersCount', ascending=False)`: sort by k-mer count,
descending.  The program (default `kind='quicksort'`) guarantees only the
descending key order; this definition additionally fixes the order among
equal counts as the stable one, which matches the program exactly in
numpy's insertion-sort regime (frames of at most 16 rows, covering every
concrete frame evaluated in this file) and is otherwise one admissible
tie order among those the program may produce (see the file header). -/
def sortKmersDesc (df : List Rec) : List Rec :=
  df.foldr insertDesc []

/-! ### Best-match resolver -/

/-- Tie-notice string used by both revisions of the resolver. -/
def tieMsg : String := "This was a tie, see the top 5 results below"

/-- The value-based decision of `is_tie` (run_species_id.py lines 615-623)
once the top two records are in hand: tie notice with blank species when the
two k-mer counts are equal, else rank-1's genus and species. -/
def bestPair (r1 r2 : Rec) : String × String :=
  if r1.kmersCount = r2.kmersCount then (tieMsg, "")
  else (r1.genus, r1.species)

/-- `is_tie` (run_species_id.py lines 593-626): sorts by `KmersCount`
descending, then compares `df_sort.iloc[0]['KmersCount']` with
`df_sort.iloc[1]['KmersCount']`.  On a frame with fewer than two rows the
positional `iloc` access raises `IndexError`. -/
def is_tie (df : List Rec) : Except PyErr (String × String) :=
  match sortKmersDesc df with
  | r1 :: r2 :: _ => .ok (bestPair r1 r2)
  | _ => .error .indexError

/-- `isTie` (species_id_tool.py lines 202-233): sorts by `KmersCount`
descending, then compares the positional slices
`dfSort.iloc[0:1, 10:11]` and `dfSort.iloc[1:2, 10:11]` with
`DataFrame.equals`.  Column 10 of that frame is `sketchSize` (columns 0-8 are
the five raw columns plus Genus, Species, GeneBank Identifier and `% Seq Sim`,
then column 9 is `KmersCount`), and `DataFrame.equals` also compares the row
labels of the two one-row slices, so a slice is modelled as its list of
(row label, sketchSize cell) pairs.  On the non-tie branch the genus/species
of `dfSort.head(1)` are joined with `Series.str.cat`, which yields `""` on an
empty frame. -/
def isTie_tool (df : List Rec) : String × String :=
  let dfSort := sortKmersDesc df
  let slice01 := (dfSort.take 1).map (fun r => (r.idx, r.sketchSize))
  let slice12 := ((dfSort.drop 1).take 1).map (fun r => (r.idx, r.sketchSize))
  if slice01 = slice12 then (tieMsg, " ")
  else
    match dfSort with
    | r :: _ => (r.genus, r.species)
    | [] => ("", "")

/-- The no-match message of `no_result` (run_species_id.py line 654).  The
embedded message renders the threshold with `toString`; the Python f-string
renders the float with `repr`, a difference immaterial to every claim. -/
def noMatchMsg (md : ℚ) : String :=
  "No matches found with mash distances < " ++ toString md ++ "..."

/-- `no_result` (run_species_id.py lines 628-658): keeps the current best
genus/species when `in_file['Mash Dist'].values[0]` is strictly below the
user-specified maximum distance, else replaces them with the no-match message
and a blank species.  `values[0]` on an empty frame raises `IndexError`. -/
def no_result (inFile : List Rec) (inMaxDis : ℚ) (bestG bestS : String) :
    Except PyErr (String × String) :=
  match inFile with
  | [] => .error .indexError
  | r :: _ =>
    if r.mashDist < inMaxDis then .ok (bestG, bestS)
    else .ok (noMatchMsg inMaxDis, " ")

/-- `parse_results` (run_species_id.py lines 660-710): parse the frame, sort
by k-mer count descending, resolve tie and threshold, and return the best
call together with `head(5)` of the sorted frame (the dropped/reordered
columns of `df_sorted_dropped` do not affect row identity or order). -/
def parse_results (rows : List RawRow) (inMaxDis : ℚ) :
    Except PyErr ((String × String) × List Rec) :=
  match parseFrame rows with
  | .error e => .error e
  | .ok recs =>
    let dfSorted := sortKmersDesc recs
    match is_tie dfSorted with
    | .error e => .error e
    | .ok bg =>
      match no_result dfSorted inMaxDis bg.1 bg.2 with
      | .error e => .error e
      | .ok best => .ok (best, dfSorted.take 5)

/-! ### Coverage / minimum-k-mer heuristic -/

/-- Python `int()` applied to a numeric value: truncation toward zero. -/
def pyTrunc (q : ℚ) : ℤ :=
  if 0 ≤ q then ⌊q⌋ else -⌊-q⌋

/-- `minKmer` (run_species_id.py lines 444-475): a user value strictly greater
than the default 2 wins; otherwise the calculated value, floored at 2. -/
def minKmer (calculatedKmer : ℤ) (min_kmer : ℤ) : ℤ :=
  if 2 < min_kmer then min_kmer
  else if calculatedKmer < 2 then 2
  else calculatedKmer

/-- The candidate computation of `cal_kmer` (run_species_id.py lines 542-543):
`minKmers = int(float(gCoverage))/3; minKmers = int(float(minKmers))`,
i.e. truncate the coverage, true-divide by 3, truncate again. -/
def calKmerCandidate (gCoverage : ℚ) : ℤ :=
  pyTrunc ((pyTrunc gCoverage : ℚ) / 3)

/-- `cal_kmer`'s resolution of the `-m` flag: the candidate from the estimated
coverage, run through `minKmer` against the (possibly user-supplied) value. -/
def resolveMinKmer (gCoverage : ℚ) (min_kmer : ℤ) : ℤ :=
  minKmer (calKmerCandidate gCoverage) min_kmer

/-! ### Genome size / coverage extraction -/

/-- `get_SC` (run_species_id.py lines 565-591): raises `ValueError` when the
stderr stream has fewer than two lines, else returns `lines[0][23:].strip()`
and `lines[1][23:].strip()` as raw strings. -/
def get_SC (stderrLines : List String) : Except PyErr (String × String) :=
  if stderrLines.length < 2 then .error .valueError
  else .ok (pyStrip (pyDropChars (stderrLines.getD 0 "") 23),
            pyStrip (pyDropChars (stderrLines.getD 1 "") 23))

/-- Acceptance by Python `float(s)` (finite decimal literals: optional sign,
digits with optional fraction, optional exponent; `inf`/`nan` spellings are
irrelevant here).  Used to state that `get_SC` performs no numeric check. -/
def isPyFloatLit (s : String) : Bool :=
  let t := ((s.data.dropWhile isPySpace).reverse.dropWhile isPySpace).reverse
  let t1 : List Char :=
    match t with
    | '+' :: r => r
    | '-' :: r => r
    | r => r
  let intPart := t1.takeWhile Char.isDigit
  let rest1 := t1.dropWhile Char.isDigit
  let p : Bool × List Char :=
    match rest1 with
    | '.' :: r2 =>
      (!intPart.isEmpty || !(r2.takeWhile Char.isDigit).isEmpty,
       r2.dropWhile Char.isDigit)
    | r => (!intPart.isEmpty, r)
  let q : Bool × List Char :=
    match p.2 with
    | 'e' :: r3 | 'E' :: r3 =>
      let r4 : List Char :=
        match r3 with
        | '+' :: r5 => r5
        | '-' :: r5 => r5
        | r5 => r5
      (!(r4.takeWhile Char.isDigit).isEmpty, r4.dropWhile Char.isDigit)
    | r => (true, r)
  p.1 && q.1 && q.2.isEmpty

/-! ### Report writer (`make_table`, run_species_id.py lines 712-762) -/

/-- The data interpolated into the report block: run metadata, the resolved
best call, and the `tabulate` rendering of the top-5 frame (an external
library treated as an opaque text producer). -/
structure ReportArgs where
  dateTime : String
  read1 : String
  read2 : String
  maxDist : String
  mFlag0 : String
  mFlag1 : String
  mFlag2 : String
  bestGenus : String
  bestSpecies : String
  tableText : String

/-- The horizontal rule `'─' * 100` written above the top-5 table. -/
def hline : String :=
  String.mk (List.replicate 100 (Char.ofNat 9472))

/-- The successive `f.write` payloads of `make_table`, in source order. -/
def makeTableWrites (a : ReportArgs) : List String :=
  ["\nLegionella Species ID Tool using Mash\n",
   "Date and Time = " ++ a.dateTime ++ "\n",
   "Input query file 1: " ++ a.read1 ++ "\n",
   "Input query file 2: " ++ a.read2 ++ "\n",
   "Maximum mash distance (-d): " ++ a.maxDist ++ "\n",
   "Minimum K-mer copy number (-m) to be included in the sketch: " ++ a.mFlag0 ++ "\n",
   "K-mer size used for sketching: " ++ a.mFlag1 ++ "\n",
   "Mash Database name: " ++ a.mFlag2 ++ "\n\n",
   "Best species match: " ++ a.bestGenus ++ " " ++ a.bestSpecies ++ "\n\n",
   "Top 5 results:\n",
   hline ++ "\n",
   a.tableText ++ "\n"]

/-- Sequential `f.write` calls on a file handle opened in append mode: each
write extends the current content at the end. -/
def appendWrites (content : String) (ws : List String) : String :=
  ws.foldl (fun c w => c ++ w) content

/-- `make_table`: open the per-sample output file in `'a+'` (append) mode and
perform the writes; the function maps the file's prior content to its content
afterwards. -/
def make_table (prior : String) (a : ReportArgs) : String :=
  appendWrites prior (makeTableWrites a)

/-- The report block in isolation: what one `make_table` call adds. -/
def reportBlock (a : ReportArgs) : String :=
  appendWrites "" (makeTableWrites a)

/-! ### Input validation and the gzip early exit -/

/-- `os.path.splitext(p)[1]`: the extension of the basename, where the
leading dots of the basename never start an extension. -/
def splitextExt (p : String) : String :=
  let base := (p.data.reverse.takeWhile (fun x => x ≠ '/')).reverse
  let rest := base.dropWhile (fun x => x = '.')
  let tail := rest.reverse.takeWhile (fun x => x ≠ '.')
  if tail.length = rest.length then ""
  else String.mk ('.' :: tail.reverse)

/-- `ParserWithErrors.is_valid_fastq` (run_species_id.py lines 33-38):
the argument is rejected (parser error, exit) exactly when its extension is
neither `.gz` nor `.fastq` and it does not end with `.fastq.gz`; `true`
means accepted. -/
def is_valid_fastq (arg : String) : Bool :=
  let ext := splitextExt arg
  if (ext != ".gz" && ext != ".fastq") && !(pyEndsWith arg ".fastq.gz") then false
  else true

/-- The gzip test at the top of `cat_files` (run_species_id.py line 420):
`read1.endswith('.gz') or read2.endswith('.gz')` triggers `sys.exit(1)`. -/
def cat_files_gz_exit (read1 read2 : String) : Bool :=
  pyEndsWith read1 ".gz" || pyEndsWith read2 ".gz"

/-- The first distance-estimation command built on the sample
(`cal_kmer`, run_species_id.py line 526). -/
def fastqCmd1 (mash_db threads : String) : List String :=
  ["mash", "dist", mash_db, "-r", "myCatFile", "-p", threads, "-S", "42"]

/-- Outcome of the sample pipeline between `cat_files` and the first
`mash dist` invocation on the sample. -/
inductive RunStage where
  | exitedEarly (code : ℕ)
  | builtDistCmd (cmd : List String)
deriving DecidableEq

/-- The main-script sequence `cat_files(read1, read2)` then `cal_kmer()`
(run_species_id.py lines 806-810): a gzipped read exits with status 1 before
`cal_kmer` builds the sample's first `mash dist` command. -/
def pipelineAfterChecks (read1 read2 mash_db threads : String) : RunStage :=
  if cat_files_gz_exit read1 read2 then .exitedEarly 1
  else .builtDistCmd (fastqCmd1 mash_db threads)


end Mashwrapper

namespace Mashwrapper

/-! ### Lemmas about the stable descending sort -/

theorem mem_insertDesc {r a : Rec} {l : List Rec} :
    a ∈ insertDesc r l ↔ a = r ∨ a ∈ l := by
  induction l with
  | nil => simp [insertDesc]
  | cons x xs ih =>
    by_cases h : r.kmersCount < x.kmersCount
    · simp only [insertDesc, if_pos h, List.mem_cons, ih]
      tauto
    · simp only [insertDesc, if_neg h, List.mem_cons]

theorem insertDesc_pairwise {r : Rec} {l : List Rec}
    (h : l.Pairwise (fun a b => b.kmersCount ≤ a.kmersCount)) :
    (insertDesc r l).Pairwise (fun a b => b.kmersCount ≤ a.kmersCount) := by
  induction l with
  | nil => simp [insertDesc]
  | cons x xs ih =>
    rcases List.pairwise_cons.mp h with ⟨hx, hxs⟩
    by_cases hc : r.kmersCount < x.kmersCount
    · simp only [insertDesc, if_pos hc]
      refine List.pairwise_cons.mpr ⟨?_, ih hxs⟩
      intro b hb
      rcases mem_insertDesc.mp hb with rfl | hbxs
      · exact le_of_lt hc
      · exact hx b hbxs
    · simp only [insertDesc, if_neg hc]
      refine List.pairwise_cons.mpr ⟨?_, h⟩
      intro b hb
      rcases List.mem_cons.mp hb with rfl | hbxs
      · exact le_of_not_lt hc
      · exact le_trans (hx b hbxs) (le_of_not_lt hc)

theorem sortKmersDesc_pairwise (l : List Rec) :
    (sortKmersDesc l).Pairwise (fun a b => b.kmersCount ≤ a.kmersCount) := by
  induction l with
  | nil => simp [sortKmersDesc]
  | cons a t ih => exact insertDesc_pairwise ih

theorem sortKmersDesc_eq_self {l : List Rec}
    (h : l.Pairwise (fun a b => b.kmersCount ≤ a.kmersCount)) :
    sortKmersDesc l = l := by
  induction l with
  | nil => rfl
  | cons a t ih =>
    rcases List.pairwise_cons.mp h with ⟨ha, ht⟩
    have hs : sortKmersDesc (a :: t) = insertDesc a (sortKmersDesc t) := rfl
    rw [hs, ih ht]
    cases t with
    | nil => rfl
    | cons x xs =>
      have hx : ¬ a.kmersCount < x.kmersCount :=
        not_lt.mpr (ha x (List.mem_cons_self x xs))
      simp [insertDesc, hx]

theorem sortKmersDesc_idem (l : List Rec) :
    sortKmersDesc (sortKmersDesc l) = sortKmersDesc l :=
  sortKmersDesc_eq_self (sortKmersDesc_pairwise l)

/-! ### Lemmas about the parsed frame -/

theorem buildRecs_seqSim :
    ∀ (i : ℕ) (rows : List RawRow) (ks : List (ℤ × Option String)) (r : Rec),
      r ∈ buildRecs i rows ks → r.seqSim = (1 - r.mashDist) * 100
  | _, [], _, r => by simp [buildRecs]
  | _, _ :: _, [], r => by simp [buildRecs]
  | i, row :: rows, k :: ks, r => by
    intro h
    rcases List.mem_cons.mp h with rfl | h2
    · rfl
    · exact buildRecs_seqSim (i + 1) rows ks r h2

theorem parseFrame_seqSim {rows : List RawRow} {recs : List Rec}
    (hp : parseFrame rows = .ok recs) :
    ∀ r ∈ recs, r.seqSim = (1 - r.mashDist) * 100 := by
  unfold parseFrame at hp
  by_cases he : rows.isEmpty
  · rw [if_pos he] at hp
    exact absurd hp (by simp)
  · rw [if_neg he] at hp
    cases hk : parseKmerColumn (rows.map (·.kmer)) with
    | error e => rw [hk] at hp; exact absurd hp (by simp)
    | ok ks =>
      rw [hk] at hp
      have : buildRecs 0 rows ks = recs := by
        exact Except.ok.inj hp
      intro r hr
      exact buildRecs_seqSim 0 rows ks r (this ▸ hr)

theorem is_tie_of_sorted {recs : List Rec} {r1 r2 : Rec} {rest : List Rec}
    (hs : sortKmersDesc recs = r1 :: r2 :: rest) :
    is_tie (sortKmersDesc recs) = .ok (bestPair r1 r2) := by
  unfold is_tie
  rw [sortKmersDesc_idem, hs]


/-! ### Arithmetic lemmas for the minimum-k-mer heuristic -/

theorem floor_trunc_div3 (c : ℚ) : ⌊((⌊c⌋ : ℚ)) / 3⌋ = ⌊c / 3⌋ := by
  have h3 : (0 : ℚ) < 3 := by norm_num
  have hm1 : ((⌊c / 3⌋ : ℤ) : ℚ) ≤ c / 3 := Int.floor_le _
  have hm2 : c / 3 < ⌊c / 3⌋ + 1 := Int.lt_floor_add_one _
  refine Int.floor_eq_iff.mpr ⟨?_, ?_⟩
  · rw [le_div_iff₀ h3]
    have hq : ((⌊c / 3⌋ : ℤ) : ℚ) * 3 ≤ c := (le_div_iff₀ h3).mp hm1
    have hz : (⌊c / 3⌋ * 3 : ℤ) ≤ ⌊c⌋ := Int.le_floor.mpr (by push_cast; exact hq)
    exact_mod_cast hz
  · rw [div_lt_iff₀ h3]
    have hq : c < (((⌊c / 3⌋ : ℤ) : ℚ) + 1) * 3 := (div_lt_iff₀ h3).mp hm2
    have hz : ⌊c⌋ < (⌊c / 3⌋ + 1) * 3 := Int.floor_lt.mpr (by push_cast; exact hq)
    exact_mod_cast hz

/-! ### Lemmas about the append-mode report writer -/

theorem appendWrites_split (content : String) (ws : List String) :
    appendWrites content ws = content ++ appendWrites "" ws := by
  induction ws generalizing content with
  | nil => simp [appendWrites]
  | cons w ws ih =>
    show appendWrites (content ++ w) ws = content ++ appendWrites ("" ++ w) ws
    rw [ih (content ++ w), ih ("" ++ w)]
    simp [String.append_assoc]

end Mashwrapper

namespace Mashwrapper

/-! ### Evaluation of `parse_results` on a resolved frame (shared helper) -/

theorem parse_results_resolved
    {rows : List RawRow} {recs : List Rec} {r1 r2 : Rec} {rest : List Rec} (md : ℚ)
    (hp : parseFrame rows = .ok recs)
    (hs : sortKmersDesc recs = r1 :: r2 :: rest) :
    parse_results rows md =
      .ok ((if r1.mashDist < md then bestPair r1 r2 else (noMatchMsg md, " ")),
           (r1 :: r2 :: rest).take 5) := by
  have ht := is_tie_of_sorted hs
  rw [hs] at ht
  simp only [parse_results, hp, hs, no_result]
  by_cases hlt : r1.mashDist < md
  · simp [ht, if_pos hlt]
  · simp [ht, if_neg hlt]

/-! ### Concrete records for the tie-detection claims -/

/-- Rank-1 candidate with 900 matching k-mers out of a 1000-size sketch. -/
def tieRecA : Rec :=
  { idx := 0, genus := "Legionella", species := "pneumophila", gbi := "GCA_1",
    mashDist := 1/100, pValue := 1/1000, kmer := "900/1000",
    kmersCount := 900, sketchSize := some "1000", seqSim := 99 }

/-- Rank-2 candidate with the same 900 matching k-mers but a 2000-size
sketch. -/
def tieRecB : Rec :=
  { idx := 1, genus := "Legionella", species := "fallonii", gbi := "GCA_2",
    mashDist := 2/100, pValue := 1/1000, kmer := "900/2000",
    kmersCount := 900, sketchSize := some "2000", seqSim := 98 }

/-- A lone parsed record, for the single-record claims. -/
def singleRec : Rec :=
  { idx := 0, genus := "Legionella", species := "anisa", gbi := "GCA_3",
    mashDist := 1/100, pValue := 1/1000, kmer := "950/1000",
    kmersCount := 950, sketchSize := some "1000", seqSim := 99 }

/-- C1: on a two-record set whose top-two k-mer counts are equal (900 and
900) the claim demands a tie report; `run_species_id.py`'s value-based
`is_tie` does report the tie, but `species_id_tool.py`'s `isTie` — which the
claim equally covers — compares the positional slice of column 10 (the
sketch-size column; here `"1000"` vs `"2000"`, and with distinct row labels
0 and 1 in any case), reports no tie, and returns rank-1's genus/species. -/
theorem isTie_tool_ignores_kmer_counts :
    tieRecA.kmersCount = tieRecB.kmersCount
    ∧ is_tie [tieRecA, tieRecB] = .ok (tieMsg, "")
    ∧ isTie_tool [tieRecA, tieRecB] = ("Legionella", "pneumophila") :=
  ⟨rfl, rfl, rfl⟩

/-- C2: on a single-record set the claim demands that resolution succeed with
that record's genus and species; `species_id_tool.py`'s `isTie` does exactly
that, but `run_species_id.py`'s `is_tie` — which the claim equally covers —
unconditionally reads the rank-2 row (`df_sort.iloc[1]`) and raises
`IndexError`, so resolution fails. -/
theorem is_tie_single_record_index_error :
    is_tie [singleRec] = .error .indexError
    ∧ isTie_tool [singleRec] = ("Legionella", "anisa") :=
  ⟨rfl, rfl⟩

/-! ### Concrete rows for the threshold-gate and top-N claims -/

/-- Rank-1 row with distance 0.0185 (below the default threshold 0.05). -/
def wRowA1 : RawRow :=
  { refID := "Legionella_pneumophila_GCA_11", queryID := "q",
    mashDist := 0.0185, pValue := 1/1000, kmer := "950/1000" }

/-- Rank-2 row with distance 0.03. -/
def wRowA2 : RawRow :=
  { refID := "Legionella_fallonii_GCA_12", queryID := "q",
    mashDist := 0.03, pValue := 1/1000, kmer := "800/1000" }

/-- Rank-1 row with distance 0.06 (above the default threshold 0.05). -/
def wRowB1 : RawRow :=
  { refID := "Legionella_pneumophila_GCA_11", queryID := "q",
    mashDist := 0.06, pValue := 1/1000, kmer := "950/1000" }

/-- Rank-2 row with distance 0.07. -/
def wRowB2 : RawRow :=
  { refID := "Legionella_fallonii_GCA_12", queryID := "q",
    mashDist := 0.07, pValue := 1/1000, kmer := "800/1000" }

/-- Parsed form of `wRowA1`. -/
def wRecA1 : Rec := mkRec 0 wRowA1 (950, some "1000")

/-- Parsed form of `wRowA2`. -/
def wRecA2 : Rec := mkRec 1 wRowA2 (800, some "1000")

/-- Parsed form of `wRowB1`. -/
def wRecB1 : Rec := mkRec 0 wRowB1 (950, some "1000")

/-- Parsed form of `wRowB2`. -/
def wRecB2 : Rec := mkRec 1 wRowB2 (800, some "1000")

/-- C3 counterexample: the claim quantifies over every non-empty ResultSet,
but on a one-record set with rank-1 distance 0.06 (not below the threshold
0.05) `parse_results` does not return the no-match call with the table: it
fails with `IndexError` in `is_tie` before the threshold gate runs. -/
theorem parse_results_singleton_no_gate :
    parse_results [{ refID := "Legionella_anisa_GCA_3", queryID := "q",
                     mashDist := 6/100, pValue := 1/1000,
                     kmer := "950/1000" : RawRow }] (5/100) = .error .indexError
    ∧ ¬ ((6 : ℚ)/100 < 5/100) :=
  ⟨rfl, by norm_num⟩

/-- C3 (amended to ResultSets whose sorted frame has at least two records):
when the rank-1 distance is strictly below `max_distance` the tie-resolved
genus/species are kept, otherwise they are overridden by the no-match
message with a blank species; in both cases the returned table is the
untouched head-5 of the sorted frame. -/
theorem parse_results_threshold_gate
    {rows : List RawRow} {recs : List Rec} {r1 r2 : Rec} {rest : List Rec} (md : ℚ)
    (hp : parseFrame rows = .ok recs)
    (hs : sortKmersDesc recs = r1 :: r2 :: rest) :
    parse_results rows md =
      .ok ((if r1.mashDist < md then bestPair r1 r2 else (noMatchMsg md, " ")),
           (r1 :: r2 :: rest).take 5) :=
  parse_results_resolved md hp hs

/-- C3 witness: with `max_distance = 0.05`, a rank-1 distance of 0.0185
keeps the computed call while 0.06 yields the no-match message, and both
runs return the same untouched top-N table. -/
theorem parse_results_threshold_gate_witness :
    parse_results [wRowA1, wRowA2] 0.05 = .ok (bestPair wRecA1 wRecA2, [wRecA1, wRecA2])
    ∧ parse_results [wRowB1, wRowB2] 0.05 = .ok ((noMatchMsg 0.05, " "), [wRecB1, wRecB2]) := by
  constructor
  · have h := @parse_results_threshold_gate [wRowA1, wRowA2]
      [wRecA1, wRecA2] wRecA1 wRecA2 [] 0.05 rfl rfl
    rw [h, if_pos (show wRecA1.mashDist < 0.05 by norm_num [wRecA1, wRowA1, mkRec])]
    rfl
  · have h := @parse_results_threshold_gate [wRowB1, wRowB2]
      [wRecB1, wRecB2] wRecB1 wRecB2 [] 0.05 rfl rfl
    rw [h, if_neg (show ¬ wRecB1.mashDist < 0.05 by norm_num [wRecB1, wRowB1, mkRec])]
    rfl

end Mashwrapper

namespace Mashwrapper

/-! ### Helper lemmas for the k-mer column parse -/

theorem parseKmerRows_ok_iff (ks : List String) :
    (∃ out, parseKmerRows ks = .ok out) ↔
      ∀ s ∈ ks, pyIntParseOpt ((pySplitChar s '/').headD "") ≠ none := by
  induction ks with
  | nil => simp [parseKmerRows]
  | cons s ss ih =>
    constructor
    · rintro ⟨out, hout⟩
      cases hn : pyIntParseOpt ((pySplitChar s '/').headD "") with
      | none => simp only [parseKmerRows, hn] at hout; exact absurd hout (by simp)
      | some n =>
        simp only [parseKmerRows, hn] at hout
        cases hr : parseKmerRows ss with
        | error e => rw [hr] at hout; simp at hout
        | ok rest =>
          intro t ht
          rcases List.mem_cons.mp ht with rfl | h2
          · rw [hn]; simp
          · exact ih.mp ⟨rest, hr⟩ t h2
    · intro hall
      have hs := hall s (List.mem_cons_self s ss)
      cases hn : pyIntParseOpt ((pySplitChar s '/').headD "") with
      | none => exact absurd hn hs
      | some n =>
        rcases ih.mpr (fun t ht => hall t (List.mem_cons_of_mem s ht)) with ⟨rest, hr⟩
        exact ⟨(n, (pySplitChar s '/').get? 1) :: rest, by
          simp only [parseKmerRows, hn, hr]⟩

theorem parseKmerRows_ok_eq :
    ∀ (ks : List String) (out : List (ℤ × Option String)),
      parseKmerRows ks = .ok out →
      out = ks.map (fun s => ((pyIntParseOpt ((pySplitChar s '/').headD "")).getD 0,
                              (pySplitChar s '/').get? 1))
  | [], out, h => by
    simp only [parseKmerRows, Except.ok.injEq] at h
    simp [h.symm]
  | s :: ss, out, h => by
    cases hn : pyIntParseOpt ((pySplitChar s '/').headD "") with
    | none => simp only [parseKmerRows, hn] at h; exact absurd h (by simp)
    | some n =>
      simp only [parseKmerRows, hn] at h
      cases hr : parseKmerRows ss with
      | error e => rw [hr] at h; simp at h
      | ok rest =>
        rw [hr] at h
        simp only [Except.ok.injEq] at h
        have hrec := parseKmerRows_ok_eq ss rest hr
        rw [← h, hrec, List.map_cons, hn]
        simp

/-- C5 counterexample: a frame whose k-mer fractions violate the claimed
contract — `"900/10"` has matched-count exceeding sketch-size and `"5/abc"`
has a non-integer sketch-size part — parses successfully instead of failing:
only the first part is ever converted to an integer and no relation between
the parts is checked. -/
theorem parseKmerColumn_accepts_violations :
    parseKmerColumn ["900/10", "5/abc"] = .ok [(900, some "10"), (5, some "abc")]
    ∧ (10 : ℤ) < 900
    ∧ pyIntParseOpt "abc" = none :=
  ⟨rfl, by norm_num, rfl⟩

/-- C5 (amended): the k-mer column parse fails exactly when the frame-wide
`split("/")` expansion does not have exactly two columns (some row with more
than two parts, or every row with a single part) or some row's first part is
not an integer literal; on success every row contributes its first part as
an integer and its raw, unvalidated optional second part, with no
`matched ≤ sketch` constraint. -/
theorem parseKmerColumn_failure_spec (kmers : List String) :
    ((∃ out, parseKmerColumn kmers = .ok out) ↔
      (kmerWidth kmers = 2 ∧
        ∀ s ∈ kmers, pyIntParseOpt ((pySplitChar s '/').headD "") ≠ none))
    ∧ (∀ out, parseKmerColumn kmers = .ok out →
        out = kmers.map
          (fun s => ((pyIntParseOpt ((pySplitChar s '/').headD "")).getD 0,
                     (pySplitChar s '/').get? 1))) := by
  constructor
  · by_cases hw : kmerWidth kmers = 2
    · have hw2 : ¬ (kmerWidth kmers ≠ 2) := by simpa using hw
      constructor
      · rintro ⟨out, hout⟩
        rw [parseKmerColumn, if_neg hw2] at hout
        exact ⟨hw, (parseKmerRows_ok_iff kmers).mp ⟨out, hout⟩⟩
      · rintro ⟨_, hall⟩
        rcases (parseKmerRows_ok_iff kmers).mpr hall with ⟨out, hout⟩
        exact ⟨out, by rw [parseKmerColumn, if_neg hw2]; exact hout⟩
    · constructor
      · rintro ⟨out, hout⟩
        rw [parseKmerColumn, if_pos hw] at hout
        simp at hout
      · rintro ⟨hw2, _⟩
        exact absurd hw2 hw
  · intro out hout
    by_cases hw : kmerWidth kmers ≠ 2
    · rw [parseKmerColumn, if_pos hw] at hout
      simp at hout
    · rw [parseKmerColumn, if_neg hw] at hout
      exact parseKmerRows_ok_eq kmers out hout

/-- C5 witness: a conforming frame parses successfully, and a frame with a
three-part row makes the whole parse fail. -/
theorem parseKmerColumn_failure_spec_witness :
    (∃ out, parseKmerColumn ["900/1000", "777"] = .ok out)
    ∧ ¬ (∃ out, parseKmerColumn ["900/1000/1"] = .ok out) := by
  constructor
  · exact (parseKmerColumn_failure_spec _).1.mpr ⟨by decide, by decide⟩
  · intro hex
    have h := (parseKmerColumn_failure_spec _).1.mp hex
    exact absurd h.1 (by decide)

/-- C6: the minimum k-mer filter resolves to the user-supplied value when
that value is strictly greater than the default 2, and otherwise to
`max ⌊genome_coverage / 3⌋ 2`. -/
theorem minKmer_resolution (c : ℚ) (u : ℤ) (hc : 0 ≤ c) :
    resolveMinKmer c u = if 2 < u then u else max ⌊c / 3⌋ 2 := by
  unfold resolveMinKmer minKmer calKmerCandidate
  have h1 : pyTrunc c = ⌊c⌋ := by
    unfold pyTrunc
    rw [if_pos hc]
  rw [h1]
  have h0 : (0 : ℚ) ≤ (⌊c⌋ : ℚ) / 3 := by
    have hz : (0 : ℤ) ≤ ⌊c⌋ := Int.floor_nonneg.mpr hc
    have hq : (0 : ℚ) ≤ (⌊c⌋ : ℚ) := by exact_mod_cast hz
    positivity
  have h2 : pyTrunc ((⌊c⌋ : ℚ) / 3) = ⌊((⌊c⌋ : ℚ)) / 3⌋ := by
    unfold pyTrunc
    rw [if_pos h0]
  rw [h2, floor_trunc_div3]
  by_cases hu : 2 < u
  · rw [if_pos hu, if_pos hu]
  · rw [if_neg hu, if_neg hu]
    rcases lt_or_le (⌊c / 3⌋) 2 with h | h
    · rw [if_pos h, max_eq_right h.le]
    · rw [if_neg (not_lt.mpr h), max_eq_left h]

/-- C6 witness: an estimated coverage of 9 with no user override (the
default 2) yields `min_kmer = ⌊9 / 3⌋ = 3`. -/
theorem minKmer_resolution_witness : resolveMinKmer 9 2 = 3 := by
  have h := minKmer_resolution 9 2 (by norm_num)
  rw [h]
  norm_num

/-- C7: every record of a successfully parsed frame carries
`% Seq Sim = (1 - Mash Dist) * 100`, computed exactly from its own
distance field. -/
theorem seqSim_exact_formula {rows : List RawRow} {recs : List Rec}
    (hp : parseFrame rows = .ok recs) :
    ∀ r ∈ recs, r.seqSim = (1 - r.mashDist) * 100 :=
  parseFrame_seqSim hp

/-- C7 witness: the similarity of a concrete parsed record is
`(1 - 0.0185) * 100 = 98.15`. -/
theorem seqSim_exact_formula_witness :
    wRecA1.seqSim = (1 - wRecA1.mashDist) * 100 ∧ wRecA1.seqSim = 98.15 := by
  have h := @seqSim_exact_formula [wRowA1, wRowA2] [wRecA1, wRecA2] rfl
  refine ⟨h wRecA1 (by simp), ?_⟩
  rw [h wRecA1 (by simp)]
  norm_num [wRecA1, wRowA1, mkRec]

end Mashwrapper

namespace Mashwrapper

/-- C8 counterexample: a two-line diagnostic stream whose extracted
substrings are not parseable as numbers is accepted by `get_SC`, which
returns the raw strings instead of failing: only the line count is ever
checked.  (The 23-character prefix stripped here is exactly
`"Estimated genome size: "`.) -/
theorem get_SC_returns_non_numeric :
    get_SC ["Estimated genome size: abc", "Estimated genome size: xyz"] =
      .ok ("abc", "xyz")
    ∧ isPyFloatLit "abc" = false ∧ isPyFloatLit "xyz" = false :=
  ⟨rfl, rfl, rfl⟩

/-- C8 (amended): `get_SC` fails exactly when the diagnostic stream has
fewer than two lines; with two or more lines it returns the
23-character-stripped, whitespace-trimmed substrings of the first two lines
verbatim, with no numeric validation. -/
theorem get_SC_line_count_spec (stderrLines : List String) :
    (stderrLines.length < 2 → get_SC stderrLines = .error .valueError)
    ∧ (2 ≤ stderrLines.length →
        get_SC stderrLines =
          .ok (pyStrip (pyDropChars (stderrLines.getD 0 "") 23),
               pyStrip (pyDropChars (stderrLines.getD 1 "") 23))) := by
  constructor
  · intro h
    rw [get_SC, if_pos h]
  · intro h
    rw [get_SC, if_neg (not_lt.mpr h)]

/-- C8 witness: a one-line stream fails; a well-formed two-line stream
returns the stripped genome size and coverage strings. -/
theorem get_SC_line_count_spec_witness :
    get_SC ["only one line"] = .error .valueError
    ∧ get_SC ["Estimated genome size: 4500000",
              "Estimated genome coverage: 9"] =
        .ok (pyStrip (pyDropChars "Estimated genome size: 4500000" 23),
             pyStrip (pyDropChars "Estimated genome coverage: 9" 23)) :=
  ⟨(get_SC_line_count_spec ["only one line"]).1 (by decide),
   (get_SC_line_count_spec _).2 (by decide)⟩

/-- C9: `make_table` only appends: after a call the file content is the
prior content followed by the new report block, and a second call for the
next sample extends it again, so no prior data is ever lost or
overwritten. -/
theorem make_table_appends_only (prior : String) (a b : ReportArgs) :
    make_table prior a = prior ++ reportBlock a
    ∧ make_table (make_table prior a) b = prior ++ reportBlock a ++ reportBlock b := by
  have h1 : make_table prior a = prior ++ reportBlock a :=
    appendWrites_split prior (makeTableWrites a)
  have h2 : make_table (make_table prior a) b = make_table prior a ++ reportBlock b :=
    appendWrites_split (make_table prior a) (makeTableWrites b)
  refine ⟨h1, ?_⟩
  rw [h2, h1]

/-- C10: whenever either read path ends in `.gz`, the run exits with status
1 inside `cat_files` before the sample's first distance-estimation command
is built, even though the command-line validator accepts every path ending
in `.fastq.gz`; consequently no gzipped input can reach the parser or
produce a report. -/
theorem gz_input_exits_before_dist :
    (∀ read1 read2 mash_db threads : String,
        pyEndsWith read1 ".gz" = true ∨ pyEndsWith read2 ".gz" = true →
        pipelineAfterChecks read1 read2 mash_db threads = .exitedEarly 1)
    ∧ (∀ arg : String, pyEndsWith arg ".fastq.gz" = true → is_valid_fastq arg = true) := by
  constructor
  · intro r1 r2 db th h
    have hgz : cat_files_gz_exit r1 r2 = true := by
      rcases h with h | h <;> simp [cat_files_gz_exit, h]
    simp [pipelineAfterChecks, hgz]
  · intro arg h
    simp [is_valid_fastq, h]

/-- C10 witness: a gzipped read pair that the validator accepts exits with
status 1 before any `mash dist` command on the sample exists. -/
theorem gz_input_exits_before_dist_witness :
    pipelineAfterChecks "samp_1.fastq.gz" "samp_2.fastq.gz" "db.msh" "2" = .exitedEarly 1
    ∧ is_valid_fastq "samp_1.fastq.gz" = true :=
  ⟨gz_input_exits_before_dist.1 _ _ _ _ (Or.inl (by decide)),
   gz_input_exits_before_dist.2 _ (by decide)⟩

end Mashwrapper
